import Mathlib

/-!
Verification of the mikrocata daemon (src/mikrocata.py): a shallow embedding
of its event filtering, blocklist reconciliation, persistence, log tailing
and connect/retry logic, together with theorems settling the specification
claims.  All string operations are modelled on `String.data` (`List Char`)
so that every definition evaluates by kernel reduction.
-/

set_option maxHeartbeats 1000000

namespace Mikrocata

/-! ## String helpers (List Char based, kernel-computable) -/

/-- Decidable prefix test on lists (used to model Python `str.startswith`). -/
def listIsPrefix {α : Type} [DecidableEq α] : List α → List α → Bool
  | [], _ => true
  | _ :: _, [] => false
  | a :: as, b :: bs => decide (a = b) && listIsPrefix as bs

/-- Substring containment on lists (used to model Python `needle in hay`). -/
def listContains {α : Type} [DecidableEq α] : List α → List α → Bool
  | [], needle => needle.isEmpty
  | a :: rest, needle => listIsPrefix needle (a :: rest) || listContains rest needle

/-- Python `hay.find(needle) != -1`, i.e. `needle in hay`. -/
def strContains (hay needle : String) : Bool :=
  listContains hay.data needle.data

/-- Python `s.startswith(p)`: plain string-prefix test (not CIDR-aware). -/
def strStartsWith (s p : String) : Bool :=
  listIsPrefix p.data s.data

/-- Python `s[n:]` for a nonnegative `n`. -/
def strDrop (s : String) (n : Nat) : String :=
  ⟨s.data.drop n⟩

/-- Python `s.strip()`: remove leading and trailing whitespace. -/
def strTrim (s : String) : String :=
  ⟨((s.data.dropWhile Char.isWhitespace).reverse.dropWhile Char.isWhitespace).reverse⟩

/-- Python `s.isdigit()` (ASCII model): nonempty and all digit characters. -/
def pyIsDigit (s : String) : Bool :=
  !s.data.isEmpty && s.data.all Char.isDigit

/-- Numeric value of a digit string, modelling Python `int(s)` on digit-only `s`. -/
def natOfDigits (ds : List Char) : Nat :=
  ds.foldl (fun n c => n * 10 + (c.toNat - 48)) 0

/-- Python `int(s)` for a digit-only string. -/
def pyIntDigits (s : String) : Nat :=
  natOfDigits s.data

/-! ## Data model: alert events and block targets -/

/-- One parsed Suricata alert record (the fields `add_to_tik` reads).
`signature_id` and `gid` are modelled as the integers `int(...)` yields. -/
structure AlertEvent where
  timestamp : String
  src_ip : String
  dest_ip : String
  src_port : Option Nat
  dest_port : Option Nat
  proto : String
  gid : Nat
  signature_id : Nat
  signature : String
deriving DecidableEq

/-- A direction-resolved block target: the address to block plus the
display-only peer port and the comment metadata. -/
structure BlockTarget where
  address : String
  port : Option Nat
  proto : String
  gid : Nat
  signature_id : Nat
  signature : String
  timestamp : String
deriving DecidableEq

/-! ## Ignore rules (`in_ignore_list`, mikrocata.py lines 303-316)

The regular-expression engine (`re.search`) is an external library; it is
passed in as an abstract Boolean matcher `search pattern text`. -/

/-- Embedding of `in_ignore_list`: an entry drops the event if it is a
digit-only string whose integer value equals the alert's `signature_id`, or
if it starts with `re:` and the regex after the marker (first occurrence of
`re:` removed by `partition`, then `strip`) matches the signature text. -/
def inIgnoreList (search : String → String → Bool) (ignr : List String)
    (event : AlertEvent) : Bool :=
  ignr.any fun entry =>
    (pyIsDigit entry && decide (pyIntDigits entry = event.signature_id))
    || (strStartsWith entry "re:"
        && search (strTrim (strDrop entry 3)) event.signature)

/-! ## Whitelist direction resolution (mikrocata.py lines 138-145) -/

/-- Python `ip.startswith(WHITELIST_IPS)` with a tuple argument: true when
some whitelist entry is a string prefix of `ip`. -/
def startsWithAny (wl : List String) (ip : String) : Bool :=
  wl.any fun p => strStartsWith ip p

/-- Python `str(port)` where `port` may be `None` (`event.get(...)`). -/
def portStr : Option Nat → String
  | some n => toString n
  | none => "None"

/-- The comment built for an address-list entry (the f-string at
mikrocata.py lines 150-155): `[gid:sid] signature ::: Port: port/proto :::
timestamp: ts`. -/
def mkComment (t : BlockTarget) : String :=
  "[" ++ toString t.gid ++ ":" ++ toString t.signature_id ++ "] "
    ++ t.signature ++ " ::: Port: " ++ portStr t.port ++ "/" ++ t.proto
    ++ " ::: timestamp: " ++ t.timestamp

/-- Per-event pipeline of the `add_to_tik` loop body (lines 133-145):
ignore check, then direction resolution against the whitelist.  Returns the
block target the add call would use, or `none` when the event is dropped. -/
def resolveTarget (search : String → String → Bool) (ignr : List String)
    (wl : List String) (event : AlertEvent) : Option BlockTarget :=
  if inIgnoreList search ignr event then none
  else if startsWithAny wl event.src_ip then
    if startsWithAny wl event.dest_ip then none
    else some ⟨event.dest_ip, event.src_port, event.proto, event.gid,
               event.signature_id, event.signature, event.timestamp⟩
  else some ⟨event.src_ip, event.dest_port, event.proto, event.gid,
             event.signature_id, event.signature, event.timestamp⟩

/-! ## Intra-batch deduplication (mikrocata.py line 132)

`{item['src_ip']: item for item in alerts}.values()`: a Python dict
comprehension keyed by `src_ip`.  Keys keep first-insertion order and a
repeated key overwrites the stored record in place (last record wins). -/

/-- Insert one record into the accumulated dict (value list): overwrite the
record stored under the same `src_ip`, or append a fresh key at the end. -/
def dedupInsert (acc : List AlertEvent) (e : AlertEvent) : List AlertEvent :=
  if acc.any (fun x => decide (x.src_ip = e.src_ip)) then
    acc.map fun x => if x.src_ip = e.src_ip then e else x
  else acc ++ [e]

/-- The record list the `add_to_tik` loop iterates over after removing
duplicate `src_ip`s. -/
def dedupBySrcIp (alerts : List AlertEvent) : List AlertEvent :=
  alerts.foldl dedupInsert []

/-! ## Remote address list (router side) and the add-or-replace algorithm
(mikrocata.py lines 147-176) -/

/-- One remote address-list entry: list name, address, comment, timeout and
the remote-assigned `.id`. -/
structure AddressListEntry where
  listName : String
  address : String
  comment : String
  timeout : String
  entryId : Nat
deriving DecidableEq

/-- The remote store's blocklist state; `nextId` generates `.id` values. -/
structure RouterState where
  entries : List AddressListEntry
  nextId : Nat
deriving DecidableEq

/-- The trap message RouterOS returns for a duplicate add; `add_to_tik`
recognises it by substring containment (`in str(e)`). -/
def dupMsg : String := "failure: already have such entry"

/-- Modelled from the spec: the remote store's add operation (an external
collaborator, §6 "Remote store protocol" and §4.4).  Adding an entry whose
`(list, address)` pair already exists is rejected with the duplicate-entry
trap; otherwise the entry is appended with a fresh remote id. -/
def rawAdd (st : RouterState) (l a c t : String) : Except String RouterState :=
  if st.entries.any (fun e => decide (e.listName = l) && decide (e.address = a)) then
    Except.error dupMsg
  else
    Except.ok ⟨st.entries ++ [⟨l, a, c, t, st.nextId⟩], st.nextId + 1⟩

/-- The select-and-remove loop in the conflict handler (lines 160-163):
remove every entry whose address and list match the rejected add. -/
def removeMatching (st : RouterState) (l a : String) : RouterState :=
  ⟨st.entries.filter (fun e => !(decide (e.listName = l) && decide (e.address = a))),
   st.nextId⟩

/-- The `except TrapError` clause (lines 158-176): a trap whose message
contains the duplicate-entry text triggers remove-all-matching followed by a
re-issued add; any other trap is re-raised. -/
def handleAddTrap (st : RouterState) (l a c t : String) (e : String) :
    Except String RouterState :=
  if strContains e dupMsg then rawAdd (removeMatching st l a) l a c t
  else Except.error e

/-- One reconciliation step for a block target (lines 147-176): try the add;
on a trap, run the conflict handler. -/
def addOrReplace (st : RouterState) (l a c t : String) : Except String RouterState :=
  match rawAdd st l a c t with
  | Except.ok st' => Except.ok st'
  | Except.error e => handleAddTrap st l a c t e

/-! ## Reboot-aware persistence (mikrocata.py lines 181-207, 254-284) -/

/-- One line of the persisted snapshot file (`savelists.json`). -/
structure SavedEntry where
  listName : String
  address : String
  timeout : String
  comment : String
deriving DecidableEq

/-- `save_lists` (lines 254-265): snapshot, for each configured list name in
order, every remote entry of that list (list, address, timeout, comment). -/
def saveLists (saveNames : List String) (st : RouterState) : List SavedEntry :=
  (saveNames.map fun n =>
    (st.entries.filter (fun e => decide (e.listName = n))).map
      fun e => ⟨e.listName, e.address, e.timeout, e.comment⟩).flatten

/-- One iteration of the `add_saved_lists` loop (lines 272-284): re-add a
persisted entry, skipping it when the remote reports it already present
(duplicate trap) and re-raising any other trap. -/
def addSaved1 (st : RouterState) (row : SavedEntry) : Except String RouterState :=
  match rawAdd st row.listName row.address row.comment row.timeout with
  | Except.ok st' => Except.ok st'
  | Except.error e => if strContains e dupMsg then Except.ok st else Except.error e

/-- `add_saved_lists` (lines 268-284): reload every persisted entry. -/
def addSavedLists (st : RouterState) (saved : List SavedEntry) :
    Except String RouterState :=
  saved.foldlM addSaved1 st

/-- Digits immediately preceding the first `m` of an uptime string, scanning
left to right: this is group 2 of the first match of `(\A|\D)(\d*)m` in
`check_tik_uptime` (line 200).  Returns `none` when the string has no `m`. -/
def digitsBeforeM (run : List Char) : List Char → Option (List Char)
  | [] => none
  | c :: rest =>
    if c = 'm' then some run
    else if c.isDigit then digitsBeforeM (run ++ [c]) rest
    else digitsBeforeM [] rest

/-- `check_tik_uptime` (lines 192-207) applied to the uptime string read
from the resource probe: `some false` for a long uptime (contains `w`, `d`
or `h`, or a minutes component of 10 or more), `some true` for a recent
reboot, `none` when Python `int("")` would raise (an `m` preceded by no
digits). -/
def checkTikUptime (uptime : String) : Option Bool :=
  if uptime.data.any (fun c => decide (c = 'w') || decide (c = 'd') || decide (c = 'h')) then
    some false
  else
    match digitsBeforeM [] uptime.data with
    | none => some true
    | some [] => none
    | some ds => some (decide (natOfDigits ds < 10))

/-- Microseconds in 10 minutes; `(dt.now(tz.utc) - time) / td(minutes=1) > 10`
holds exactly when the elapsed microseconds exceed this value. -/
def tenMinutesUs : Nat := 600000000

/-- The process-wide persistence state: remote blocklist, snapshot file
contents, and the reboot-cooldown timestamp (microseconds since epoch). -/
structure PersistState where
  router : RouterState
  savedFile : List SavedEntry
  lastReload : Nat
deriving DecidableEq

/-- The end-of-batch persistence step of `add_to_tik` (lines 181-189):
if recently rebooted and more than 10 minutes have passed since the last
reload, set the cooldown timestamp and reload the saved lists; if not
recently rebooted, snapshot the configured lists.  `none` models the
uptime-parse `ValueError`; the inner `Except` propagates a fatal trap from
the reload. -/
def postBatch (saveNames : List String) (uptime : String) (now : Nat)
    (st : PersistState) : Option (Except String PersistState) :=
  match checkTikUptime uptime with
  | none => none
  | some recent =>
    let step1 : Except String PersistState :=
      if recent && decide (tenMinutesUs < now - st.lastReload) then
        match addSavedLists st.router st.savedFile with
        | Except.ok r' => Except.ok ⟨r', st.savedFile, now⟩
        | Except.error e => Except.error e
      else Except.ok st
    match step1 with
    | Except.error e => some (Except.error e)
    | Except.ok st1 =>
      if !recent then
        some (Except.ok ⟨st1.router, saveLists saveNames st1.router, st1.lastReload⟩)
      else some (Except.ok st1)

/-! ## Log tailer (mikrocata.py lines 81-117)

File contents are byte strings modelled as `List Char`; the JSON decoder
(`ujson.loads`, an external library) is an abstract `parse` function that
either yields an alert record or raises. -/

/-- Split file bytes into the lines `f.readlines()` yields (the trailing
newline of each line is dropped; `ujson.loads` ignores it). -/
def splitNl (cur : List Char) : List Char → List (List Char)
  | [] => [cur.reverse]
  | c :: rest =>
    if c = '\n' then cur.reverse :: splitNl [] rest
    else splitNl (c :: cur) rest

/-- Lines of a byte tail, matching `readlines()`: no empty final element
when the content ends with a newline (or is empty). -/
def fileLines (cs : List Char) : List (List Char) :=
  let parts := splitNl [] cs
  if parts.getLast? = some [] then parts.dropLast else parts

/-- `read_json` (lines 103-117) on an existing file: seek to the stored
offset, parse every newly appended line, and advance the offset to the end
of file only after every line parsed (`last_pos = f.tell()` runs after the
list comprehension).  On a parse failure the error propagates and the
stored offset is returned unchanged. -/
def readJson (parse : List Char → Except String AlertEvent) (content : List Char)
    (lastPos : Nat) : Except String (List AlertEvent) × Nat :=
  match (fileLines (content.drop lastPos)).mapM parse with
  | Except.ok evs => (Except.ok evs, max lastPos content.length)
  | Except.error e => (Except.error e, lastPos)

/-- `check_truncated` (lines 81-85): reset the offset to 0 exactly when it
strictly exceeds the current file size. -/
def checkTruncated (lastPos : Nat) (fileSize : Nat) : Nat :=
  if fileSize < lastPos then 0 else lastPos

/-- `seek_to_end` (lines 88-100): unless replay-from-start is requested, the
offset becomes the current file size. -/
def seekToEnd (addOnStart : Bool) (lastPos fileSize : Nat) : Nat :=
  if addOnStart then lastPos else fileSize

/-! ## Connect/retry state machine (`connect_to_tik`, lines 210-251) -/

/-- Outcome of one `librouteros.connect` attempt. -/
inductive ConnectOutcome where
  | ok
  | trap (msg : String)
  | sockTimeout
  | connRefused
  | osErr (errno : Nat)
deriving DecidableEq

/-- What one iteration of the connect loop does with an attempt outcome. -/
inductive StepAction where
  | connected
  | retryAfter (secs : Nat)
  | fatalTrap (msg : String)
  | fatalOs (errno : Nat)
deriving DecidableEq

/-- The trap text recognised as an authentication rejection (line 223). -/
def authMsg : String := "invalid user name or password"

/-- The `except` ladder of `connect_to_tik`: auth-rejection traps, socket
timeouts, connection refusal and errno 113/101 sleep and retry; every other
trap or OS error is re-raised. -/
def classifyConnect : ConnectOutcome → StepAction
  | ConnectOutcome.ok => StepAction.connected
  | ConnectOutcome.trap msg =>
    if strContains msg authMsg then StepAction.retryAfter 10
    else StepAction.fatalTrap msg
  | ConnectOutcome.sockTimeout => StepAction.retryAfter 30
  | ConnectOutcome.connRefused => StepAction.retryAfter 10
  | ConnectOutcome.osErr n =>
    if n = 113 then StepAction.retryAfter 10
    else if n = 101 then StepAction.retryAfter 10
    else StepAction.fatalOs n

/-- How a run of the connect loop ends (after finitely many attempts). -/
inductive ConnTerm where
  | connected
  | fatalTrap (msg : String)
  | fatalOs (errno : Nat)
  | retrying
deriving DecidableEq

/-- Run the `while True` connect loop against a finite script of attempt
outcomes; collects the sleep durations of the retries it performed.  An
exhausted script means the loop is still retrying (it never gives up). -/
def runConnect : List ConnectOutcome → List Nat × ConnTerm
  | [] => ([], ConnTerm.retrying)
  | o :: rest =>
    match classifyConnect o with
    | StepAction.connected => ([], ConnTerm.connected)
    | StepAction.retryAfter s =>
      let r := runConnect rest
      (s :: r.1, r.2)
    | StepAction.fatalTrap m => ([], ConnTerm.fatalTrap m)
    | StepAction.fatalOs n => ([], ConnTerm.fatalOs n)

/-- The sleep a retryable outcome incurs (10s, or 30s for a timeout). -/
def waitSecs (o : ConnectOutcome) : Nat :=
  match classifyConnect o with
  | StepAction.retryAfter s => s
  | _ => 0

/-! ## Connection loss during a batch (mikrocata.py lines 147-179, 69-77,
329-344) -/

/-- Outcome of one remote add call issued for a block target. -/
inductive AddOutcome where
  | ok
  | sockTimeout
  | connClosed
deriving DecidableEq

/-- Observable actions of a reconciliation run. -/
inductive BatchAction where
  | addAttempt (t : BlockTarget)
  | reconnect
  | raisedConnClosed
deriving DecidableEq

/-- The `add_to_tik` target loop under a per-target remote outcome script:
a successful add moves to the next target; `socket.timeout` is caught in
the loop (line 178), runs `connect_to_tik` and moves on to the NEXT target;
a closed connection is not caught inside `add_to_tik` and aborts the loop
by raising. -/
def runBatch : List (BlockTarget × AddOutcome) → List BatchAction
  | [] => []
  | (t, AddOutcome.ok) :: rest => BatchAction.addAttempt t :: runBatch rest
  | (t, AddOutcome.sockTimeout) :: rest =>
    BatchAction.addAttempt t :: BatchAction.reconnect :: runBatch rest
  | (t, AddOutcome.connClosed) :: _ =>
    [BatchAction.addAttempt t, BatchAction.raisedConnClosed]

/-- One driver-loop wake (lines 329-336): `librouteros.ConnectionClosed`
escaping the batch is caught in `main`, which reconnects and continues. -/
def runWake (batch : List (BlockTarget × AddOutcome)) : List BatchAction :=
  let acts := runBatch batch
  if acts.any (fun a => decide (a = BatchAction.raisedConnClosed)) then
    acts ++ [BatchAction.reconnect]
  else acts

/-! ## Driver-loop error dispatch (`main`, lines 329-344, and the pyinotify
handler, lines 69-77) -/

/-- The error classes that can escape one wake of the driver loop. -/
inductive DriverErr where
  | connClosed
  | sockTimeout
  | trapErr
  | keyErr
  | jsonParseErr
deriving DecidableEq

/-- What the `while True` loop in `main` does with an escaped error. -/
inductive LoopOutcome where
  | reconnectContinue
  | continueLoop
  | crash
deriving DecidableEq

/-- The `except` ladder of `main` (lines 333-344): `ConnectionClosed` and
`socket.timeout` reconnect and continue; `TrapError` and `KeyError` are
logged and skipped; a `ujson` `ValueError` matches no clause (nor the
handler's `except ConnectionError`, line 74) and terminates the process. -/
def mainDispatch : DriverErr → LoopOutcome
  | DriverErr.connClosed => LoopOutcome.reconnectContinue
  | DriverErr.sockTimeout => LoopOutcome.reconnectContinue
  | DriverErr.trapErr => LoopOutcome.continueLoop
  | DriverErr.keyErr => LoopOutcome.continueLoop
  | DriverErr.jsonParseErr => LoopOutcome.crash

/-- The last record of a batch carrying a given `src_ip` (file order). -/
def lastWithKey (s : String) (alerts : List AlertEvent) : Option AlertEvent :=
  alerts.reverse.find? fun x => decide (x.src_ip = s)

/-- The batch-loss half of claim C8 as stated: whenever a connection loss
(socket timeout or closed connection) hits some target's remote call, no
later target of the same batch is acted on. -/
def batchLostClaim : Prop :=
  ∀ (pre post : List (BlockTarget × AddOutcome)) (t : BlockTarget) (o : AddOutcome),
    (o = AddOutcome.sockTimeout ∨ o = AddOutcome.connClosed) →
    ∀ t' o', (t', o') ∈ post →
      BatchAction.addAttempt t' ∉ runBatch (pre ++ (t, o) :: post)

/-! ## Sample inputs used by witnesses and counterexamples -/

/-- An alert from an external source aimed at a local host. -/
def evExternal : AlertEvent :=
  ⟨"2024-01-01T00:00:00.000000+0000", "203.0.113.5", "192.168.1.2",
   some 55000, some 443, "TCP", 1, 2000001, "TEST RULE"⟩

/-- An alert whose source is in the local whitelist prefix. -/
def evLocal : AlertEvent :=
  ⟨"2024-01-01T00:00:00.000000+0000", "192.168.1.7", "10.0.0.2",
   some 55000, some 443, "TCP", 1, 2000001, "TEST RULE"⟩

/-- An alert with both endpoints whitelisted. -/
def evBothLocal : AlertEvent :=
  ⟨"2024-01-01T00:00:00.000000+0000", "192.168.1.7", "127.0.0.1",
   some 55000, some 443, "TCP", 1, 2000001, "TEST RULE"⟩

/-- Three-record batch: two share `src_ip` 203.0.113.5, the middle one is
from a different source. -/
def evDup1 : AlertEvent :=
  ⟨"t1", "203.0.113.5", "10.0.0.2", some 1, some 80, "TCP", 1, 11, "SIG ONE"⟩

def evOther : AlertEvent :=
  ⟨"t2", "198.51.100.9", "10.0.0.2", some 2, some 81, "TCP", 1, 12, "SIG TWO"⟩

def evDup2 : AlertEvent :=
  ⟨"t3", "203.0.113.5", "10.0.0.3", some 3, some 82, "UDP", 1, 13, "BAD SIG"⟩

/-- Example block targets for the batch-loss model. -/
def tgtA : BlockTarget := ⟨"203.0.113.5", some 443, "TCP", 1, 11, "SIG ONE", "t1"⟩

def tgtB : BlockTarget := ⟨"198.51.100.9", some 443, "TCP", 1, 12, "SIG TWO", "t2"⟩

/-- A router state already holding an entry for the pair being re-added. -/
def rstDup : RouterState :=
  ⟨[⟨"Suricata", "203.0.113.5", "old comment", "1d", 0⟩], 1⟩

/-- A line-indexed parse function failing on the second line, standing in
for `ujson.loads` hitting malformed JSON. -/
def parseFailX (l : List Char) : Except String AlertEvent :=
  if l = "x".data then Except.error "bad json" else Except.ok evDup1

/-! # Helper lemmas -/

theorem listIsPrefix_refl {α : Type} [DecidableEq α] (xs : List α) :
    listIsPrefix xs xs = true := by
  induction xs with
  | nil => rfl
  | cons a as ih => simp [listIsPrefix, ih]

theorem listContains_self {α : Type} [DecidableEq α] (xs : List α) :
    listContains xs xs = true := by
  cases xs with
  | nil => rfl
  | cons a as => simp [listContains, listIsPrefix_refl]

theorem strContains_dup_self : strContains dupMsg dupMsg = true :=
  listContains_self _

/-- `rawAdd` can only fail with the duplicate-entry trap. -/
theorem rawAdd_error_eq (st : RouterState) (l a c t e : String)
    (h : rawAdd st l a c t = Except.error e) : e = dupMsg := by
  unfold rawAdd at h
  split at h
  · exact (Except.error.injEq _ _ ▸ h.symm)
  · exact absurd h (by simp)

/-- A persisted-entry re-add never raises: the only possible trap is the
duplicate-entry conflict, which is skipped. -/
theorem addSaved1_ok (st : RouterState) (row : SavedEntry) :
    ∃ st', addSaved1 st row = Except.ok st' := by
  unfold addSaved1
  cases h : rawAdd st row.listName row.address row.comment row.timeout with
  | ok st' => exact ⟨st', rfl⟩
  | error e =>
    have he : e = dupMsg := rawAdd_error_eq _ _ _ _ _ _ h
    subst he
    simp [strContains_dup_self]

theorem addSavedLists_ok (saved : List SavedEntry) (st : RouterState) :
    ∃ st', addSavedLists st saved = Except.ok st' := by
  induction saved generalizing st with
  | nil => exact ⟨st, rfl⟩
  | cons row rest ih =>
    obtain ⟨st1, h1⟩ := addSaved1_ok st row
    obtain ⟨st2, h2⟩ := ih st1
    exact ⟨st2, by simp [addSavedLists, List.foldlM, h1]; exact h2⟩

/-! # Claim C4: the ignore check -/

/-- C4: an alert event is dropped by the ignore check exactly when some
loaded rule is a nonempty all-digits string whose integer value equals the
event's `signature_id`, or some rule starts with `re:` and its regular
expression (the text after the marker, stripped) matches the signature
text; a rule of any other form never drops an event. -/
theorem ignore_check_characterisation (search : String → String → Bool)
    (rules : List String) (e : AlertEvent) :
    inIgnoreList search rules e = true ↔
      ∃ entry ∈ rules,
        (entry.data ≠ [] ∧ (∀ c ∈ entry.data, c.isDigit = true) ∧
          natOfDigits entry.data = e.signature_id)
        ∨ (strStartsWith entry "re:" = true ∧
           search (strTrim (strDrop entry 3)) e.signature = true) := by
  simp only [inIgnoreList, List.any_eq_true, pyIsDigit, pyIntDigits,
        List.all_eq_true, List.isEmpty_iff, Bool.and_eq_true, Bool.or_eq_true,
        Bool.not_eq_true', decide_eq_true_eq]
  refine exists_congr fun entry => and_congr_right fun _ => or_congr ?_ Iff.rfl
  constructor
  · rintro ⟨⟨h1, h2⟩, h3⟩
    exact ⟨by simpa using h1, h2, h3⟩
  · rintro ⟨h1, h2, h3⟩
    exact ⟨⟨by simpa using h1, h2⟩, h3⟩

/-- Witness for C4 at concrete inputs: `evDup2` (signature id 13, signature
"BAD SIG") is dropped by the digit rule "13" and by the pattern rule
"re: BAD ", and is kept by a rule list holding only a malformed line. -/
theorem ignore_check_witness :
    inIgnoreList (fun p t => strContains t p) ["13"] evDup2 = true
  ∧ inIgnoreList (fun p t => strContains t p) ["re: BAD "] evDup2 = true
  ∧ inIgnoreList (fun p t => strContains t p) ["13abc"] evDup2 = false := by
  refine ⟨?_, ?_, ?_⟩
  · exact (ignore_check_characterisation _ _ _).mpr
      ⟨"13", by simp, Or.inl (by refine ⟨by decide, by decide, by decide⟩)⟩
  · exact (ignore_check_characterisation _ _ _).mpr
      ⟨"re: BAD ", by simp, Or.inr ⟨by decide, by decide⟩⟩
  · by_contra hc
    rw [Bool.not_eq_false] at hc
    obtain ⟨entry, hmem, hcase⟩ := (ignore_check_characterisation _ _ _).mp hc
    rw [List.mem_singleton] at hmem
    subst hmem
    rcases hcase with ⟨_, hdig, _⟩ | ⟨hre, _⟩
    · exact absurd (hdig 'a' (by decide)) (by decide)
    · exact absurd hre (by decide)

/-! # Claim C3: whitelist direction resolution -/

/-- C3: for an event that passes the ignore check, a whitelisted source
redirects the block to the destination (with the source port as the
display-only port) unless the destination is itself whitelisted, in which
case no target is produced; a non-whitelisted source is blocked itself with
the destination port as the display-only port.  The whitelist test is
`startsWithAny`, a plain string-prefix check. -/
theorem direction_resolution (search : String → String → Bool)
    (rules : List String) (wl : List String) (e : AlertEvent)
    (hpass : inIgnoreList search rules e = false) :
    (startsWithAny wl e.src_ip = true → startsWithAny wl e.dest_ip = false →
      resolveTarget search rules wl e
        = some ⟨e.dest_ip, e.src_port, e.proto, e.gid, e.signature_id,
                e.signature, e.timestamp⟩)
  ∧ (startsWithAny wl e.src_ip = true → startsWithAny wl e.dest_ip = true →
      resolveTarget search rules wl e = none)
  ∧ (startsWithAny wl e.src_ip = false →
      resolveTarget search rules wl e
        = some ⟨e.src_ip, e.dest_port, e.proto, e.gid, e.signature_id,
                e.signature, e.timestamp⟩) := by
  refine ⟨fun h1 h2 => ?_, fun h1 h2 => ?_, fun h1 => ?_⟩
  · simp [resolveTarget, hpass, h1, h2]
  · simp [resolveTarget, hpass, h1, h2]
  · simp [resolveTarget, hpass, h1]

/-- Witness for C3: with whitelist `["192.168.", "127.0.0.1"]` the local-
source event blocks its destination, the doubly-whitelisted event yields no
target, and the external-source event blocks its source. -/
theorem direction_resolution_witness :
    resolveTarget (fun _ _ => false) [] ["192.168.", "127.0.0.1"] evLocal
      = some ⟨"10.0.0.2", some 55000, "TCP", 1, 2000001, "TEST RULE",
              "2024-01-01T00:00:00.000000+0000"⟩
  ∧ resolveTarget (fun _ _ => false) [] ["192.168.", "127.0.0.1"] evBothLocal = none
  ∧ resolveTarget (fun _ _ => false) [] ["192.168.", "127.0.0.1"] evExternal
      = some ⟨"203.0.113.5", some 443, "TCP", 1, 2000001, "TEST RULE",
              "2024-01-01T00:00:00.000000+0000"⟩ := by
  refine ⟨?_, ?_, ?_⟩
  · exact (direction_resolution _ _ _ _ (by decide)).1 (by decide) (by decide)
  · exact (direction_resolution _ _ _ _ (by decide)).2.1 (by decide) (by decide)
  · exact (direction_resolution _ _ _ _ (by decide)).2.2 (by decide)

/-! # Claim C6: offset monotonicity and truncation reset -/

/-- C6: the stored offset never decreases across a startup seek (which
moves it from the initial 0 to the file size) or a read (which moves it
from `lastPos` to `max lastPos size`, also when the read fails); the
truncation check resets it to 0 exactly when it strictly exceeds the
current file size, and a read issued after such a reset consumes the file
from its very beginning. -/
theorem offset_monotone_truncation_reset
    (parse : List Char → Except String AlertEvent) (content : List Char)
    (lastPos fileSize : Nat) :
    lastPos ≤ (readJson parse content lastPos).2
  ∧ (0:Nat) ≤ seekToEnd false 0 fileSize
  ∧ (lastPos ≤ fileSize → checkTruncated lastPos fileSize = lastPos)
  ∧ (fileSize < lastPos →
      checkTruncated lastPos fileSize = 0
      ∧ content.drop (checkTruncated lastPos fileSize) = content) := by
  refine ⟨?_, Nat.zero_le _, fun h => ?_, fun h => ⟨?_, ?_⟩⟩
  · unfold readJson
    cases hm : (fileLines (content.drop lastPos)).mapM parse with
    | ok evs => simp [Nat.le_max_left]
    | error e => simp
  · simp [checkTruncated, Nat.not_lt.mpr h]
  · simp [checkTruncated, h]
  · simp [checkTruncated, h]

/-- Witness for C6: a stored offset of 500 against a 200-byte file resets
to 0, an offset of 200 against a 500-byte file survives, and a read never
moves the offset backwards. -/
theorem offset_truncation_witness :
    checkTruncated 500 200 = 0
  ∧ checkTruncated 200 500 = 200
  ∧ 3 ≤ (readJson parseFailX "ok\nx\n".data 3).2
  ∧ List.drop (checkTruncated 500 200) "ok\nx\n".data = "ok\nx\n".data := by
  refine ⟨(offset_monotone_truncation_reset parseFailX [] 500 200).2.2.2
            (by decide) |>.1,
          (offset_monotone_truncation_reset parseFailX [] 200 500).2.2.1
            (by decide),
          (offset_monotone_truncation_reset parseFailX "ok\nx\n".data 3 0).1,
          (offset_monotone_truncation_reset parseFailX "ok\nx\n".data 500 200).2.2.2
            (by decide) |>.2⟩

/-! # Claim C9: malformed JSON handling (corrected) -/

/-- C9, first half (holds): a line that fails to parse makes `read_json`
propagate the parse error and leave the stored offset unchanged, so the
failing line is not skipped; the `KeyError` of a missing field is caught by
the driver loop, which skips the batch and continues. -/
theorem parse_failure_not_skipped
    (parse : List Char → Except String AlertEvent) (content : List Char)
    (lastPos : Nat) (e : String)
    (hfail : (fileLines (content.drop lastPos)).mapM parse = Except.error e) :
    readJson parse content lastPos = (Except.error e, lastPos)
  ∧ mainDispatch DriverErr.jsonParseErr = LoopOutcome.crash
  ∧ mainDispatch DriverErr.keyErr = LoopOutcome.continueLoop := by
  refine ⟨?_, rfl, rfl⟩
  unfold readJson
  rw [hfail]

/-- Witness for C9: a tail `ok\nx\n` whose second line is malformed makes
the read fail with the parse error while the offset stays at 0. -/
theorem parse_failure_witness :
    readJson parseFailX "ok\nx\n".data 0 = (Except.error "bad json", 0)
  ∧ mainDispatch DriverErr.jsonParseErr = LoopOutcome.crash
  ∧ mainDispatch DriverErr.keyErr = LoopOutcome.continueLoop :=
  parse_failure_not_skipped parseFailX "ok\nx\n".data 0 "bad json" rfl

/-- Counterexample to C9 as stated: the claim says a JSON parse failure
triggers the driver loop's reconnect/retry path, but no `except` clause of
`main` (lines 333-344) matches a `ValueError`, so the error escapes the
loop and the process terminates. -/
theorem parse_failure_counterexample :
    mainDispatch DriverErr.jsonParseErr ≠ LoopOutcome.reconnectContinue
  ∧ mainDispatch DriverErr.jsonParseErr = LoopOutcome.crash := by
  exact ⟨by decide, rfl⟩

/-! # Claim C1: add-or-replace on duplicate conflict -/

/-- After the conflict handler removed the matching rows, the pair is gone
from the list. -/
theorem any_pair_removeMatching (st : RouterState) (l a : String) :
    (removeMatching st l a).entries.any
      (fun e => decide (e.listName = l) && decide (e.address = a)) = false := by
  rw [List.any_eq_false]
  intro x hx
  rw [removeMatching] at hx
  simp only [List.mem_filter] at hx
  have h2 := hx.2
  simp at h2 ⊢
  tauto

theorem filter_pair_removeMatching (st : RouterState) (l a : String) :
    (removeMatching st l a).entries.filter
      (fun e => decide (e.listName = l) && decide (e.address = a)) = [] := by
  rw [removeMatching]
  rw [List.filter_filter]
  simp

/-- Adding to a state with no entry for the pair succeeds and appends. -/
theorem rawAdd_ok_of_no_dup (st : RouterState) (l a c t : String)
    (h : st.entries.any
        (fun e => decide (e.listName = l) && decide (e.address = a)) = false) :
    rawAdd st l a c t
      = Except.ok ⟨st.entries ++ [⟨l, a, c, t, st.nextId⟩], st.nextId + 1⟩ := by
  unfold rawAdd
  simp [h]

/-- C1: reconciling a target always ends with exactly one remote entry for
its `(list, address)` pair, carrying the new comment and timeout — when the
add is rejected as a duplicate, all matching rows are removed and the add is
re-issued; a trap that is not the duplicate-entry conflict is re-raised to
the caller. -/
theorem add_or_replace_single_entry (st : RouterState) (l a c t : String) :
    (∃ st', addOrReplace st l a c t = Except.ok st'
      ∧ (st'.entries.filter
            (fun e => decide (e.listName = l) && decide (e.address = a))).map
          (fun e => (e.comment, e.timeout)) = [(c, t)])
  ∧ (∀ msg, strContains msg dupMsg = false →
      handleAddTrap st l a c t msg = Except.error msg) := by
  constructor
  · by_cases hany : st.entries.any
        (fun e => decide (e.listName = l) && decide (e.address = a)) = true
    · -- the pair already exists: conflict path removes it and re-adds
      have hrm := any_pair_removeMatching st l a
      refine ⟨⟨(removeMatching st l a).entries ++ [⟨l, a, c, t, st.nextId⟩],
               st.nextId + 1⟩, ?_, ?_⟩
      · unfold addOrReplace rawAdd handleAddTrap
        simp only [hany, if_true]
        rw [if_pos strContains_dup_self]
        rw [rawAdd_ok_of_no_dup _ _ _ _ _ hrm]
        rfl
      · rw [List.filter_append, filter_pair_removeMatching]
        simp
    · -- fresh pair: the first add already succeeds
      rw [Bool.not_eq_true] at hany
      refine ⟨⟨st.entries ++ [⟨l, a, c, t, st.nextId⟩], st.nextId + 1⟩, ?_, ?_⟩
      · unfold addOrReplace
        rw [rawAdd_ok_of_no_dup _ _ _ _ _ hany]
      · rw [List.filter_append]
        rw [List.filter_eq_nil_iff.mpr (by simpa [List.any_eq_false] using hany)]
        simp
  · intro msg hmsg
    unfold handleAddTrap
    simp [hmsg]

/-- Witness for C1: re-adding 203.0.113.5 to a state that already holds an
entry for it leaves exactly one entry with the new comment and timeout, and
a non-duplicate trap message is propagated unchanged. -/
theorem add_or_replace_witness :
    (∃ st', addOrReplace rstDup "Suricata" "203.0.113.5" "new comment" "2d"
        = Except.ok st'
      ∧ (st'.entries.filter
            (fun e => decide (e.listName = "Suricata")
              && decide (e.address = "203.0.113.5"))).map
          (fun e => (e.comment, e.timeout)) = [("new comment", "2d")])
  ∧ handleAddTrap rstDup "Suricata" "203.0.113.5" "new comment" "2d"
      "failure: entry limit reached"
      = Except.error "failure: entry limit reached" :=
  ⟨(add_or_replace_single_entry rstDup "Suricata" "203.0.113.5"
      "new comment" "2d").1,
   (add_or_replace_single_entry rstDup "Suricata" "203.0.113.5"
      "new comment" "2d").2 "failure: entry limit reached" (by decide)⟩

/-! # Claim C7: the connect/retry state machine -/

/-- If every scripted outcome is retryable, the loop does one bounded wait
per outcome; it only stops retrying when an attempt succeeds. -/
theorem runConnect_all_retryable (script : List ConnectOutcome)
    (h : ∀ o ∈ script, ∃ s, classifyConnect o = StepAction.retryAfter s) :
    runConnect script = (script.map waitSecs, ConnTerm.retrying) := by
  induction script with
  | nil => rfl
  | cons o rest ih =>
    obtain ⟨s, hs⟩ := h o (by simp)
    have hrest := ih fun o' ho' => h o' (by simp [ho'])
    have hw : waitSecs o = s := by rw [waitSecs, hs]
    simp [runConnect, hs, hrest, hw]

/-- After any all-retryable prefix, a successful attempt ends the loop in
the connected state. -/
theorem runConnect_connects (script rest : List ConnectOutcome)
    (h : ∀ o ∈ script, ∃ s, classifyConnect o = StepAction.retryAfter s) :
    runConnect (script ++ ConnectOutcome.ok :: rest)
      = (script.map waitSecs, ConnTerm.connected) := by
  induction script with
  | nil => rfl
  | cons o rest' ih =>
    obtain ⟨s, hs⟩ := h o (by simp)
    have hrest := ih fun o' ho' => h o' (by simp [ho'])
    have hw : waitSecs o = s := by rw [waitSecs, hs]
    simp [runConnect, hs, hrest, hw]

/-- C7: the connect loop classifies failures exactly as the claim states —
authentication-rejection traps, connection refusal and errno 113/101 wait
10 seconds and retry, a socket timeout waits 30 seconds and retries, all
indefinitely (an all-retryable run never terminates the loop), while any
other trap or OS error is propagated as fatal; the loop returns only once
an attempt succeeds. -/
theorem connect_retry_policy (msg : String) (n : Nat)
    (script rest : List ConnectOutcome) :
    (strContains msg authMsg = true →
      classifyConnect (ConnectOutcome.trap msg) = StepAction.retryAfter 10)
  ∧ (strContains msg authMsg = false →
      classifyConnect (ConnectOutcome.trap msg) = StepAction.fatalTrap msg)
  ∧ classifyConnect ConnectOutcome.sockTimeout = StepAction.retryAfter 30
  ∧ classifyConnect ConnectOutcome.connRefused = StepAction.retryAfter 10
  ∧ classifyConnect (ConnectOutcome.osErr 113) = StepAction.retryAfter 10
  ∧ classifyConnect (ConnectOutcome.osErr 101) = StepAction.retryAfter 10
  ∧ (n ≠ 113 → n ≠ 101 →
      classifyConnect (ConnectOutcome.osErr n) = StepAction.fatalOs n)
  ∧ ((∀ o ∈ script, ∃ s, classifyConnect o = StepAction.retryAfter s) →
      runConnect script = (script.map waitSecs, ConnTerm.retrying)
      ∧ runConnect (script ++ ConnectOutcome.ok :: rest)
          = (script.map waitSecs, ConnTerm.connected)) := by
  refine ⟨fun h => ?_, fun h => ?_, rfl, rfl, rfl, rfl, fun h1 h2 => ?_,
          fun h => ⟨runConnect_all_retryable script h,
                    runConnect_connects script rest h⟩⟩
  · rw [classifyConnect, if_pos h]
  · rw [classifyConnect, if_neg (by simp [h])]
  · rw [classifyConnect, if_neg h1, if_neg h2]

/-- Witness for C7: a run that sees a timeout, a refusal, no-route, and an
auth rejection waits 30, 10, 10 and 10 seconds, then connects on the fifth
attempt; a foreign trap and errno 110 are fatal. -/
theorem connect_retry_witness :
    classifyConnect (ConnectOutcome.trap authMsg) = StepAction.retryAfter 10
  ∧ classifyConnect (ConnectOutcome.trap "some other trap")
      = StepAction.fatalTrap "some other trap"
  ∧ classifyConnect (ConnectOutcome.osErr 110) = StepAction.fatalOs 110
  ∧ runConnect [ConnectOutcome.sockTimeout, ConnectOutcome.connRefused,
      ConnectOutcome.osErr 113, ConnectOutcome.trap authMsg, ConnectOutcome.ok]
      = ([30, 10, 10, 10], ConnTerm.connected) := by
  refine ⟨(connect_retry_policy authMsg 110 [] []).1 (by decide),
          (connect_retry_policy "some other trap" 110 [] []).2.1 (by decide),
          (connect_retry_policy authMsg 110 [] []).2.2.2.2.2.2.1
            (by decide) (by decide), ?_⟩
  have h := (connect_retry_policy authMsg 110
      [ConnectOutcome.sockTimeout, ConnectOutcome.connRefused,
       ConnectOutcome.osErr 113, ConnectOutcome.trap authMsg] []).2.2.2.2.2.2.2
    (by
      intro o ho
      fin_cases ho
      · exact ⟨30, rfl⟩
      · exact ⟨10, rfl⟩
      · exact ⟨10, rfl⟩
      · exact ⟨10, by rw [classifyConnect, if_pos (by decide)]⟩)
  exact h.2

/-! # Claim C8: connection loss during reconciliation (corrected) -/

/-- A closed connection aborts the target loop at the triggering add; every
earlier action is kept, nothing after it runs. -/
theorem runBatch_connClosed_aborts (pre post : List (BlockTarget × AddOutcome))
    (t : BlockTarget)
    (hpre : ∀ p ∈ pre, p.2 ≠ AddOutcome.connClosed) :
    runBatch (pre ++ (t, AddOutcome.connClosed) :: post)
      = runBatch pre
        ++ [BatchAction.addAttempt t, BatchAction.raisedConnClosed] := by
  induction pre with
  | nil => rfl
  | cons p rest ih =>
    obtain ⟨t', o⟩ := p
    have hrest := ih fun q hq => hpre q (by simp [hq])
    cases o with
    | ok => simp [runBatch, hrest]
    | sockTimeout => simp [runBatch, hrest]
    | connClosed => exact absurd rfl (hpre (t', AddOutcome.connClosed) (by simp))

/-- A target that never reappears in the rest of the batch is never
re-added by the loop. -/
theorem runBatch_no_attempt (post : List (BlockTarget × AddOutcome))
    (t : BlockTarget) (h : ∀ p ∈ post, p.1 ≠ t) :
    (runBatch post).countP (fun a => decide (a = BatchAction.addAttempt t)) = 0 := by
  induction post with
  | nil => rfl
  | cons p rest ih =>
    obtain ⟨t', o⟩ := p
    have ht' : t' ≠ t := h (t', o) (by simp)
    have hrest := ih fun q hq => h q (by simp [hq])
    cases o with
    | ok => simp [runBatch, List.countP_cons, hrest, ht']
    | sockTimeout => simp [runBatch, List.countP_cons, hrest, ht']
    | connClosed => simp [runBatch, List.countP_cons, ht']

/-- C8 (amended): a closed connection during an add escapes `add_to_tik`
and reaches the driver loop, which reconnects through the full connect
state machine; the remainder of the batch is abandoned and the triggering
add is not retried.  A socket timeout during an add reconnects through the
full state machine right inside the target loop and then continues with
the NEXT target: the triggering add is issued exactly once, never retried
inside the session. -/
theorem connection_loss_handling (pre post : List (BlockTarget × AddOutcome))
    (t : BlockTarget) :
    ((∀ p ∈ pre, p.2 ≠ AddOutcome.connClosed) →
      runBatch (pre ++ (t, AddOutcome.connClosed) :: post)
        = runBatch pre
          ++ [BatchAction.addAttempt t, BatchAction.raisedConnClosed]
      ∧ runWake (pre ++ (t, AddOutcome.connClosed) :: post)
          = (runBatch pre
              ++ [BatchAction.addAttempt t, BatchAction.raisedConnClosed])
            ++ [BatchAction.reconnect])
  ∧ runBatch ((t, AddOutcome.sockTimeout) :: post)
      = BatchAction.addAttempt t :: BatchAction.reconnect :: runBatch post
  ∧ ((∀ p ∈ post, p.1 ≠ t) →
      (runBatch ((t, AddOutcome.sockTimeout) :: post)).countP
        (fun a => decide (a = BatchAction.addAttempt t)) = 1) := by
  refine ⟨fun hpre => ?_, rfl, fun hpost => ?_⟩
  · have habort := runBatch_connClosed_aborts pre post t hpre
    refine ⟨habort, ?_⟩
    rw [runWake, habort]
    rw [if_pos (by simp)]
  · have hzero := runBatch_no_attempt post t hpost
    simp [runBatch, List.countP_cons, hzero]

/-- Witness for C8 at a concrete two-target batch. -/
theorem connection_loss_witness :
    runWake [(tgtA, AddOutcome.connClosed), (tgtB, AddOutcome.ok)]
      = [BatchAction.addAttempt tgtA, BatchAction.raisedConnClosed,
         BatchAction.reconnect]
  ∧ runBatch [(tgtA, AddOutcome.sockTimeout), (tgtB, AddOutcome.ok)]
      = [BatchAction.addAttempt tgtA, BatchAction.reconnect,
         BatchAction.addAttempt tgtB]
  ∧ (runBatch [(tgtA, AddOutcome.sockTimeout), (tgtB, AddOutcome.ok)]).countP
      (fun a => decide (a = BatchAction.addAttempt tgtA)) = 1 := by
  refine ⟨?_, ?_, ?_⟩
  · exact ((connection_loss_handling [] [(tgtB, AddOutcome.ok)] tgtA).1
      (by simp)).2
  · exact (connection_loss_handling [] [(tgtB, AddOutcome.ok)] tgtA).2.1
  · exact (connection_loss_handling [] [(tgtB, AddOutcome.ok)] tgtA).2.2
      (by simp [tgtA, tgtB])

/-- Counterexample to C8 as stated: after a socket timeout on the first
target's add, the loop reconnects in place and still issues the second
target's add in the same batch — the batch is not lost. -/
theorem batch_loss_counterexample : ¬ batchLostClaim := by
  intro h
  exact h [] [(tgtB, AddOutcome.ok)] tgtA AddOutcome.sockTimeout (Or.inl rfl)
    tgtB AddOutcome.ok (by simp) (by decide)

/-! # Claim C5: reboot-aware persistence (corrected) -/

/-- C5 (amended): after a batch, persisted entries are reloaded (each one
skipped if already present, and the reload never raises) exactly when the
uptime string indicates a recent reboot and STRICTLY MORE than 10 minutes
have elapsed since the last reload, in which case the cooldown timestamp
becomes the current time; with a recent reboot inside the cooldown nothing
happens; without a recent reboot the configured lists are snapshotted over
the previous snapshot. -/
theorem reboot_persistence (names : List String) (uptime : String) (now : Nat)
    (st : PersistState) (recent : Bool)
    (hrec : checkTikUptime uptime = some recent) :
    (recent = true → tenMinutesUs < now - st.lastReload →
      ∃ r', addSavedLists st.router st.savedFile = Except.ok r'
        ∧ postBatch names uptime now st
            = some (Except.ok ⟨r', st.savedFile, now⟩))
  ∧ (recent = true → ¬ tenMinutesUs < now - st.lastReload →
      postBatch names uptime now st = some (Except.ok st))
  ∧ (recent = false →
      postBatch names uptime now st
        = some (Except.ok ⟨st.router, saveLists names st.router,
                           st.lastReload⟩)) := by
  refine ⟨fun h1 h2 => ?_, fun h1 h2 => ?_, fun h1 => ?_⟩
  · obtain ⟨r', hr⟩ := addSavedLists_ok st.savedFile st.router
    refine ⟨r', hr, ?_⟩
    unfold postBatch
    rw [hrec]
    subst h1
    simp [h2, hr]
  · unfold postBatch
    rw [hrec]
    subst h1
    simp [h2]
  · unfold postBatch
    rw [hrec]
    subst h1
    simp

/-- Witness for C5: a 3-minute uptime with the cooldown expired reloads and
stamps the cooldown; the same uptime inside the cooldown does nothing; a
3-week uptime snapshots instead. -/
theorem reboot_persistence_witness :
    (∃ r', addSavedLists (⟨[], 0⟩ : RouterState)
        [⟨"Suricata", "7.7.7.7", "1d", "c"⟩] = Except.ok r'
      ∧ postBatch ["Suricata"] "3m" 600000001
          ⟨⟨[], 0⟩, [⟨"Suricata", "7.7.7.7", "1d", "c"⟩], 0⟩
          = some (Except.ok ⟨r', [⟨"Suricata", "7.7.7.7", "1d", "c"⟩],
                             600000001⟩))
  ∧ postBatch ["Suricata"] "3m" 300 ⟨⟨[], 0⟩, [], 100⟩
      = some (Except.ok ⟨⟨[], 0⟩, [], 100⟩)
  ∧ postBatch ["Suricata"] "3w2d" 0 ⟨rstDup, [], 0⟩
      = some (Except.ok ⟨rstDup, saveLists ["Suricata"] rstDup, 0⟩) :=
  ⟨(reboot_persistence ["Suricata"] "3m" 600000001
      ⟨⟨[], 0⟩, [⟨"Suricata", "7.7.7.7", "1d", "c"⟩], 0⟩ true (by decide)).1
      rfl (by decide),
   (reboot_persistence ["Suricata"] "3m" 300 ⟨⟨[], 0⟩, [], 100⟩ true
      (by decide)).2.1 rfl (by decide),
   (reboot_persistence ["Suricata"] "3w2d" 0 ⟨rstDup, [], 0⟩ false
      (by decide)).2.2 rfl⟩

/-- Counterexample to C5 as stated: with a recent reboot (uptime `3m`) and
exactly 10 minutes elapsed since the last reload — satisfying the claim's
"at least 10 minutes" — the code performs no reload: the comparison at line
184 is strict, so the state comes back unchanged and the cooldown timestamp
is not set to the current time. -/
theorem reboot_reload_boundary_counterexample :
    checkTikUptime "3m" = some true
  ∧ tenMinutesUs ≤ 600000000 - (0 : Nat)
  ∧ postBatch ["Suricata"] "3m" 600000000 ⟨⟨[], 0⟩, [], 0⟩
      = some (Except.ok ⟨⟨[], 0⟩, [], 0⟩) :=
  ⟨by decide, by decide, rfl⟩

/-! # Claims C2 and C10: intra-batch deduplication -/

/-- Filtering by key after the dict-overwrite step: if the written record
carries the key, every stored record under that key became the new one;
other keys are untouched. -/
theorem filter_map_replace (acc : List AlertEvent) (e : AlertEvent) (s : String) :
    ((acc.map fun x => if x.src_ip = e.src_ip then e else x).filter
        (fun x => decide (x.src_ip = s)))
      = if e.src_ip = s
        then List.replicate
            ((acc.filter (fun x => decide (x.src_ip = e.src_ip))).length) e
        else acc.filter (fun x => decide (x.src_ip = s)) := by
  by_cases hk : e.src_ip = s
  · subst hk
    rw [if_pos rfl]
    induction acc with
    | nil => simp
    | cons x rest ih =>
      by_cases hx : x.src_ip = e.src_ip
      · simp [hx, List.replicate_succ, ih]
      · simp [hx, ih]
  · rw [if_neg hk]
    induction acc with
    | nil => simp
    | cons x rest ih =>
      by_cases hx : x.src_ip = e.src_ip
      · have hxs : ¬ x.src_ip = s := fun h => hk (hx ▸ h)
        simp [hx, hxs, hk, ih]
      · by_cases hxs : x.src_ip = s
        · have hks : ¬ s = e.src_ip := fun h => hk h.symm
          simp [hx, hxs, hks, ih]
        · simp [hx, hxs, ih]

/-- One dict insertion, seen through a key filter: the inserted record is
now the only one stored under its key, and other keys are untouched. -/
theorem filter_dedupInsert (acc : List AlertEvent) (e : AlertEvent) (s : String)
    (hacc : (acc.filter (fun x => decide (x.src_ip = s))).length ≤ 1) :
    (dedupInsert acc e).filter (fun x => decide (x.src_ip = s))
      = if e.src_ip = s then [e]
        else acc.filter (fun x => decide (x.src_ip = s)) := by
  unfold dedupInsert
  by_cases hany : acc.any (fun x => decide (x.src_ip = e.src_ip)) = true
  · rw [if_pos hany, filter_map_replace]
    by_cases hk : e.src_ip = s
    · rw [if_pos hk, if_pos hk]
      subst hk
      have hlen : (acc.filter
          (fun x => decide (x.src_ip = e.src_ip))).length = 1 := by
        refine le_antisymm hacc ?_
        rw [List.any_eq_true] at hany
        obtain ⟨x, hx, hpx⟩ := hany
        exact List.length_pos.mpr
          (List.ne_nil_of_mem (List.mem_filter.mpr ⟨hx, hpx⟩))
      rw [hlen, List.replicate_one]
    · rw [if_neg hk, if_neg hk]
  · rw [if_neg hany, List.filter_append]
    rw [Bool.not_eq_true, List.any_eq_false] at hany
    by_cases hk : e.src_ip = s
    · have hnil : acc.filter (fun x => decide (x.src_ip = s)) = [] := by
        rw [List.filter_eq_nil_iff]
        intro x hx
        have := hany x hx
        simp only [decide_eq_true_eq] at this ⊢
        exact fun h => this (h.trans hk.symm)
      rw [hnil, if_pos hk]
      simp [hk]
    · rw [if_neg hk]
      simp [hk]

/-- The key filter of the whole dict fold: the key's surviving record is
`lastWithKey`, the last batch record that carried the key. -/
theorem foldl_dedup_filter (alerts : List AlertEvent) (acc : List AlertEvent)
    (s : String)
    (hacc : (acc.filter (fun x => decide (x.src_ip = s))).length ≤ 1) :
    ((alerts.foldl dedupInsert acc).filter (fun x => decide (x.src_ip = s)))
      = (lastWithKey s alerts).elim
          (acc.filter (fun x => decide (x.src_ip = s))) (fun e => [e]) := by
  induction alerts generalizing acc with
  | nil => simp [lastWithKey]
  | cons e rest ih =>
    have hstep := filter_dedupInsert acc e s hacc
    have hacc' : ((dedupInsert acc e).filter
        (fun x => decide (x.src_ip = s))).length ≤ 1 := by
      rw [hstep]
      split
      · simp
      · exact hacc
    rw [List.foldl_cons, ih (dedupInsert acc e) hacc']
    rw [lastWithKey, lastWithKey, List.reverse_cons, List.find?_append]
    cases hfind : List.find? (fun x => decide (x.src_ip = s)) rest.reverse with
    | some y => simp [hfind]
    | none =>
      simp only [hfind, Option.none_or, Option.elim_none]
      rw [hstep]
      by_cases hk : e.src_ip = s <;> simp [hk, List.find?]

/-- The deduplicated batch holds, under each `src_ip` key, exactly the last
record of the batch bearing that key (and nothing if the key is absent). -/
theorem dedup_filter_last (alerts : List AlertEvent) (s : String) :
    ((dedupBySrcIp alerts).filter (fun x => decide (x.src_ip = s)))
      = (lastWithKey s alerts).elim [] (fun e => [e]) := by
  have h := foldl_dedup_filter alerts [] s (by simp)
  simpa [dedupBySrcIp] using h

/-- C2: per distinct `src_ip` of the original records, at most one record —
hence at most one block target — survives deduplication, and the survivor
is precisely the last record in file order bearing that `src_ip`. -/
theorem dedup_last_wins (alerts : List AlertEvent) (s : String) :
    ((dedupBySrcIp alerts).filter (fun x => decide (x.src_ip = s))).length ≤ 1
  ∧ (∀ e, lastWithKey s alerts = some e →
      (dedupBySrcIp alerts).filter (fun x => decide (x.src_ip = s)) = [e])
  ∧ (∀ (search : String → String → Bool) (rules wl : List String),
      (((dedupBySrcIp alerts).filter (fun x => decide (x.src_ip = s))).filterMap
          (resolveTarget search rules wl)).length ≤ 1) := by
  have hmain := dedup_filter_last alerts s
  refine ⟨?_, fun e he => ?_, fun search rules wl => ?_⟩
  · rw [hmain]
    cases lastWithKey s alerts <;> simp
  · rw [hmain, he]
    rfl
  · refine le_trans (List.length_filterMap_le _ _) ?_
    rw [hmain]
    cases lastWithKey s alerts <;> simp

/-- Witness for C2: in a batch of three records where the first and third
share `src_ip` 203.0.113.5, only the third survives under that key. -/
theorem dedup_last_wins_witness :
    dedupBySrcIp [evDup1, evOther, evDup2] = [evDup2, evOther]
  ∧ (dedupBySrcIp [evDup1, evOther, evDup2]).filter
      (fun x => decide (x.src_ip = "203.0.113.5")) = [evDup2] :=
  ⟨by decide, (dedup_last_wins [evDup1, evOther, evDup2] "203.0.113.5").2.1
      evDup2 (by decide)⟩

/-- C10: deduplication runs before the ignore check, so when the LAST record
of a batch for some `src_ip` matches an ignore rule, no block target is
produced for that `src_ip` — even if an earlier record under the same key
matched no rule. -/
theorem dedup_before_ignore (alerts : List AlertEvent) (s : String)
    (e : AlertEvent) (search : String → String → Bool) (rules wl : List String)
    (hlast : lastWithKey s alerts = some e)
    (hign : inIgnoreList search rules e = true) :
    ((dedupBySrcIp alerts).filter (fun x => decide (x.src_ip = s))).filterMap
        (resolveTarget search rules wl) = [] := by
  rw [dedup_filter_last alerts s, hlast]
  simp [resolveTarget, hign]

/-- Witness for C10: the first record (signature "SIG ONE") matches no
ignore rule, the last record under the same `src_ip` matches `re:BAD`, and
the batch yields no target for 203.0.113.5. -/
theorem dedup_before_ignore_witness :
    inIgnoreList (fun p t => strContains t p) ["re:BAD"] evDup1 = false
  ∧ ((dedupBySrcIp [evDup1, evDup2]).filter
        (fun x => decide (x.src_ip = "203.0.113.5"))).filterMap
      (resolveTarget (fun p t => strContains t p) ["re:BAD"] []) = [] :=
  ⟨by decide, dedup_before_ignore [evDup1, evDup2] "203.0.113.5" evDup2
      (fun p t => strContains t p) ["re:BAD"] [] (by decide) (by decide)⟩

end Mikrocata
